import Mathlib

/-!
Verification of the CRUCIBLE tool-calling conversation orchestrator.

This file gives a shallow embedding of the two core components of the
repository:

* `execute_tool` (src/demo_tools.py) — the tool registry and dispatcher that
  routes LLM tool calls to the registered `identify_material` function and
  converts results and Python exceptions into serialized outcomes;
* `CrucibleChat.chat` (src/demo_llm.py) — the conversation orchestrator that
  appends the user turn to session history, drives the bounded (three
  iteration) tool-calling loop against the generation engine, and appends the
  final assistant turn.

External collaborators are abstracted as function parameters, exactly as the
code treats them: the generation engine (`llm.create_chat_completion`), the
standard-library JSON parser (`json.loads`), and the identification function
(`identify_material`, imported from the `tools` module, a black-box
classifier per the design).  Python exceptions are modelled by an explicit
error type threaded through `Except`.
-/

set_option autoImplicit false
set_option maxRecDepth 40000

namespace Crucible

/-- JSON-like values, the data carried between the JSON parser, the argument
mapping, the identification function and the serialized outcomes.  JSON
numbers (Python ints and floats merged) are modelled as rationals; objects
are association lists with the first binding winning, mirroring Python dict
lookup (dict keys are unique, so first-match lookup agrees with dict
semantics). -/
inductive JVal where
  | null
  | bool (b : Bool)
  | num (q : Rat)
  | str (s : String)
  | arr (xs : List JVal)
  | obj (fields : List (String × JVal))

/-- Python exceptions as observed by the dispatcher: `KeyError` carries the
missing key (the dispatcher has a dedicated `except KeyError` clause); every
other exception is abstracted by its `str(e)` message. -/
inductive PyExc where
  | keyError (key : String)
  | other (msg : String)
deriving DecidableEq

/-- Python `str(e)` for the modelled exceptions: `str(KeyError(k))` renders
the key in quotes, any other exception renders its message. -/
def strPyExc : PyExc → String
  | .keyError k => "\x27" ++ k ++ "\x27"
  | .other m => m

/-- First-match lookup in a JSON object's field list (Python dict lookup). -/
def lookupField : List (String × JVal) → String → Option JVal
  | [], _ => none
  | (k, v) :: rest, key => if k = key then some v else lookupField rest key

/-- Python subscripting `value[key]` with a string key, as used by the
dispatcher to read `arguments["peak_1"]` etc.: on a dict a missing key
raises `KeyError`; on any non-dict value a `TypeError` is raised (its exact
message text varies with the value's Python type; no property below depends
on those messages). -/
def getitem : JVal → String → Except PyExc JVal
  | .obj fields, key =>
    match lookupField fields key with
    | some v => Except.ok v
    | none => Except.error (.keyError key)
  | .null, _ => Except.error (.other "\x27NoneType\x27 object is not subscriptable")
  | .bool _, _ => Except.error (.other "\x27bool\x27 object is not subscriptable")
  | .num _, _ => Except.error (.other "\x27float\x27 object is not subscriptable")
  | .str _, _ => Except.error (.other "string indices must be integers")
  | .arr _, _ => Except.error (.other "list indices must be integers or slices, not str")

/-- A tool outcome: either the identification function's return value, or an
error description.  `execute_tool` in the source serializes this structure to
a JSON string (`json.dumps({"success": True, "result": ...}` or
`{"success": False, "error": ...}`); the serialization step is split off
below as `dumpsOutcome`. -/
inductive Outcome where
  | success (result : JVal)
  | failure (error : String)

/-- How the dispatcher's two `except` clauses convert a caught exception into
a failure outcome: `except KeyError as e` yields the f-string
`f"Missing argument: {e}"`, and `except Exception as e` yields `str(e)`. -/
def outcomeOfExc : PyExc → Outcome
  | .keyError k => .failure ("Missing argument: " ++ strPyExc (.keyError k))
  | .other m => .failure m

/-- The three required-argument reads `arguments["peak_1"]`,
`arguments["peak_2"]`, `arguments["formation_energy"]`, evaluated in this
order before the call, the first failure raising out (Python evaluates the
call's argument expressions left to right). -/
def requiredArgs (arguments : JVal) : Except PyExc (JVal × JVal × JVal) :=
  match getitem arguments "peak_1" with
  | .error e => .error e
  | .ok p1 =>
    match getitem arguments "peak_2" with
    | .error e => .error e
    | .ok p2 =>
      match getitem arguments "formation_energy" with
      | .error e => .error e
      | .ok fe => .ok (p1, p2, fe)

/-- The dispatcher `execute_tool` of src/demo_tools.py at the outcome level,
parameterized by the registered identification function (`identify_material`
from the `tools` module, an external black box whose exceptions surface as
`Except.error`).  The single `try` block wraps both the argument reads and
the call, with `except KeyError` and `except Exception` converting any raise
into a failure outcome. -/
def execute_tool_outcome (identify : JVal → JVal → JVal → Except PyExc JVal)
    (tool_name : String) (arguments : JVal) : Outcome :=
  if tool_name ≠ "identify_material" then
    .failure ("Unknown tool: " ++ tool_name)
  else
    match requiredArgs arguments with
    | .error e => outcomeOfExc e
    | .ok (p1, p2, fe) =>
      match identify p1 p2 fe with
      | .ok v => .success v
      | .error e => outcomeOfExc e

/-- Number of invocations of the registered identification function performed
by one `execute_tool` dispatch: zero for an unknown tool name or when an
argument read raises before the call, one otherwise (the call site occurs
exactly once, after all three reads succeed). -/
def execute_tool_calls (tool_name : String) (arguments : JVal) : Nat :=
  if tool_name ≠ "identify_material" then 0
  else
    match requiredArgs arguments with
    | .error _ => 0
    | .ok _ => 1

/-- JSON string escaping for `json.dumps` (quote, backslash and the common
control characters; no property below serializes other control characters). -/
def jsonEscapeChar (c : Char) : String :=
  if c = '"' then "\\\""
  else if c = '\\' then "\\\\"
  else if c = '\n' then "\\n"
  else if c = '\t' then "\\t"
  else if c = '\r' then "\\r"
  else String.singleton c

/-- Escape a string for inclusion in JSON output. -/
def jsonEscape (s : String) : String :=
  String.join (s.data.map jsonEscapeChar)

/-- Rendering of a JSON number.  Python's `repr`-based float rendering is
abstracted: integers render exactly, non-integers by their reduced fraction;
no property below inspects a serialized number. -/
def dumpsNum (q : Rat) : String :=
  if q.den = 1 then toString q.num else toString q

mutual

/-- Serialization of a JSON value in the shape produced by `json.dumps` with
its default separators. -/
def dumpsJVal : JVal → String
  | .null => "null"
  | .bool true => "true"
  | .bool false => "false"
  | .num q => dumpsNum q
  | .str s => "\"" ++ jsonEscape s ++ "\""
  | .arr xs => "[" ++ dumpsList xs ++ "]"
  | .obj fs => "\x7b" ++ dumpsFields fs ++ "\x7d"

/-- Comma-separated serialization of array elements. -/
def dumpsList : List JVal → String
  | [] => ""
  | [x] => dumpsJVal x
  | x :: y :: rest => dumpsJVal x ++ ", " ++ dumpsList (y :: rest)

/-- Comma-separated serialization of object fields. -/
def dumpsFields : List (String × JVal) → String
  | [] => ""
  | [(k, v)] => "\"" ++ jsonEscape k ++ "\": " ++ dumpsJVal v
  | (k, v) :: f :: rest =>
    "\"" ++ jsonEscape k ++ "\": " ++ dumpsJVal v ++ ", " ++ dumpsFields (f :: rest)

end

/-- Serialization of an outcome, as built by the dispatcher's `json.dumps`
calls on `{"success": True, "result": result}` and
`{"success": False, "error": ...}` (insertion order preserved, `True` and
`False` rendered as JSON booleans). -/
def dumpsOutcome : Outcome → String
  | .success v => "\x7b\"success\": true, \"result\": " ++ dumpsJVal v ++ "\x7d"
  | .failure e => "\x7b\"success\": false, \"error\": \"" ++ jsonEscape e ++ "\"\x7d"

/-- The dispatcher `execute_tool` exactly as in the source: a JSON string. -/
def execute_tool (identify : JVal → JVal → JVal → Except PyExc JVal)
    (tool_name : String) (arguments : JVal) : String :=
  dumpsOutcome (execute_tool_outcome identify tool_name arguments)

/-! ## The conversation orchestrator (src/demo_llm.py, `CrucibleChat.chat`) -/

/-- The `function` member of a tool call produced by the engine: the tool
name and the raw arguments payload, delivered as serialized text that the
orchestrator passes to `json.loads`. -/
structure ToolFunction where
  name : String
  arguments : String
deriving DecidableEq

/-- A tool call as found in the engine reply's `tool_calls` list: a unique
invocation identifier and the function descriptor. -/
structure ToolCall where
  id : String
  function : ToolFunction
deriving DecidableEq

/-- One message of the conversation, mirroring the dicts the orchestrator
builds: a role, optional text content (`None` on a pending tool invocation),
the `tool_calls` list attached to an assistant turn that requests a tool
(absent key and `None` both modelled as `[]`, matching Python truthiness of
`message.get("tool_calls")`), and the `tool_call_id` of a tool-role turn. -/
structure Msg where
  role : String
  content : Option String
  tool_calls : List ToolCall
  tool_call_id : Option String
deriving DecidableEq

/-- The message part of an engine reply (`response["choices"][0]["message"]`;
the single-choice wrapper is elided): text content and the list of requested
tool calls. -/
structure EngineReply where
  content : Option String
  tool_calls : List ToolCall
deriving DecidableEq

/-- The system prompt of src/demo_llm.py, prepended at request time and never
stored in the persisted history. -/
def SYSTEM_PROMPT : String :=
  "You are CRUCIBLE, a material science assistant that helps identify materials from spectroscopic data.\n\nYour main capability is identifying materials using Raman spectroscopy data. You have access to a tool called \x27identify_material\x27 that requires three parameters:\n- peak_1: First Raman peak in cm^-1\n- peak_2: Second Raman peak in cm^-1  \n- formation_energy: Formation energy in eV/atom\n\nWhen users provide this data, use the tool to identify the material. If data is missing, politely ask for it.\n\nBe concise, scientific, and helpful. Explain your identifications briefly."

/-- The fixed fallback string returned when the iteration cap is reached. -/
def fallbackMessage : String :=
  "I had trouble processing that request. Could you rephrase?"

/-- The dict `{"role": "user", "content": user_message}`. -/
def userTurn (content : String) : Msg :=
  ⟨"user", some content, [], none⟩

/-- The dict `{"role": "assistant", "content": assistant_response}` appended
to history on a direct answer (the content is whatever the engine returned,
possibly `None`). -/
def assistantTurn (content : Option String) : Msg :=
  ⟨"assistant", content, [], none⟩

/-- The dict `{"role": "system", "content": SYSTEM_PROMPT}`. -/
def systemTurn : Msg :=
  ⟨"system", some SYSTEM_PROMPT, [], none⟩

/-- The dict `{"role": "assistant", "content": None, "tool_calls": [tool_call]}`
appended to the outbound context for the pending invocation (only the first
tool call of the reply). -/
def assistantToolTurn (tool_call : ToolCall) : Msg :=
  ⟨"assistant", none, [tool_call], none⟩

/-- The dict `{"role": "tool", "tool_call_id": tool_call["id"], "content": tool_result}`
appended to the outbound context with the serialized outcome. -/
def toolTurn (tool_call : ToolCall) (tool_result : String) : Msg :=
  ⟨"tool", some tool_result, [], some tool_call.id⟩

/-- The generation engine `llm.create_chat_completion`, abstracted as a
function from the outbound context to a reply; a raised exception (timeout,
malformed response) is `Except.error`. -/
abbrev Engine := List Msg → Except PyExc EngineReply

/-- The standard-library parser `json.loads`, abstracted; `Except.error` is
a raised `json.JSONDecodeError` (or any other exception). -/
abbrev JsonLoads := String → Except PyExc JVal

/-- The identification function, abstracted (imported from the `tools`
module, external to the orchestrator per the design). -/
abbrev Identify := JVal → JVal → JVal → Except PyExc JVal

/-- Result of one `chat` call: the session history `self.history` as left by
the call, and either the returned answer text (`Except.ok`; the content may
be `None` when the engine replied with neither tool calls nor content) or
the exception that propagated out of the call (`Except.error`). -/
structure ChatOutcome where
  history : List Msg
  result : Except PyExc (Option String)

/-- The body of `chat`'s `for _ in range(3)` loop, by recursion on the
remaining iteration count.  `history` is `self.history` with the user turn
already appended; `messages` is the growing outbound context.  Exhausting
the fuel returns the fallback without touching history; an engine exception
or a `json.loads` exception propagates, leaving history as is; a reply with
a nonempty `tool_calls` list (Python truthiness of
`message.get("tool_calls")`) dispatches the first call and appends the
invocation/outcome pair to the outbound context only; a reply without tool
calls appends the final assistant turn to history and returns its content. -/
def chatLoop (engine : Engine) (jloads : JsonLoads) (identify : Identify)
    (history : List Msg) : List Msg → Nat → ChatOutcome
  | _, 0 => ⟨history, Except.ok (some fallbackMessage)⟩
  | messages, n + 1 =>
    match engine messages with
    | Except.error e => ⟨history, Except.error e⟩
    | Except.ok message =>
      match message.tool_calls with
      | [] => ⟨history ++ [assistantTurn message.content], Except.ok message.content⟩
      | tool_call :: _ =>
        match jloads tool_call.function.arguments with
        | Except.error e => ⟨history, Except.error e⟩
        | Except.ok tool_args =>
          let tool_result := execute_tool identify tool_call.function.name tool_args
          chatLoop engine jloads identify history
            (messages ++ [assistantToolTurn tool_call, toolTurn tool_call tool_result]) n

/-- The orchestrator `CrucibleChat.chat`: append the user turn to the session
history, build the outbound context as the system prompt plus the full
stored history, and run the tool-calling loop with an iteration cap of 3. -/
def chat (engine : Engine) (jloads : JsonLoads) (identify : Identify)
    (history : List Msg) (user_message : String) : ChatOutcome :=
  let history1 := history ++ [userTurn user_message]
  chatLoop engine jloads identify history1 (systemTurn :: history1) 3

/-- The successive outbound contexts at which `chatLoop` invokes the
generation engine (one per loop iteration actually run, in order): the
observation of `chat`'s engine calls used to state context invariants. -/
def sentContexts (engine : Engine) (jloads : JsonLoads) (identify : Identify) :
    List Msg → Nat → List (List Msg)
  | _, 0 => []
  | messages, n + 1 =>
    messages ::
      (match engine messages with
       | Except.error _ => []
       | Except.ok message =>
         match message.tool_calls with
         | [] => []
         | tool_call :: _ =>
           match jloads tool_call.function.arguments with
           | Except.error _ => []
           | Except.ok tool_args =>
             let tool_result := execute_tool identify tool_call.function.name tool_args
             sentContexts engine jloads identify
               (messages ++ [assistantToolTurn tool_call, toolTurn tool_call tool_result]) n)

/-- The outbound contexts the generation engine sees during one `chat` call. -/
def chatContexts (engine : Engine) (jloads : JsonLoads) (identify : Identify)
    (history : List Msg) (user_message : String) : List (List Msg) :=
  let history1 := history ++ [userTurn user_message]
  sentContexts engine jloads identify (systemTurn :: history1) 3

/-- Whether a message is an assistant turn carrying a pending tool
invocation. -/
def pendingInvocation (m : Msg) : Bool :=
  m.role == "assistant" && !m.tool_calls.isEmpty

/-- Whether the turn `t` resolves the invocation requests `tcs` of the turn
just before it: there is exactly one request, and `t` is a tool-role turn
tagged with that request's identifier (and itself carries no requests). -/
def resolves (tcs : List ToolCall) (t : Msg) : Bool :=
  match tcs with
  | [tc] => t.role == "tool" && t.tool_call_id == some tc.id && t.tool_calls.isEmpty
  | _ => false

/-- Context well-formedness: every assistant turn carrying a tool invocation
request holds exactly one tool call and is immediately followed, before any
other turn, by a tool-role turn whose `tool_call_id` is that request's
identifier. -/
def toolPairsOk : List Msg → Bool
  | [] => true
  | [m] => !pendingInvocation m
  | m :: t :: rest =>
    if pendingInvocation m then resolves m.tool_calls t && toolPairsOk rest
    else toolPairsOk (t :: rest)

/-! ## Concrete fixtures used to instantiate the theorems below -/

/-- The smoke-test arguments of src/demo_tools.py:
`{"peak_1": 465, "peak_2": 610, "formation_energy": -11.2}`. -/
def ceriaArgs : List (String × JVal) :=
  [("peak_1", JVal.num 465), ("peak_2", JVal.num 610), ("formation_energy", JVal.num (-11.2))]

/-- The same arguments with an extra unrecognized key. -/
def ceriaArgsExtra : List (String × JVal) :=
  [("peak_1", JVal.num 465), ("peak_2", JVal.num 610),
   ("formation_energy", JVal.num (-11.2)), ("units", JVal.str "cm^-1")]

/-- An identification function returning a fixed label. -/
def identifyCeria : Identify := fun _ _ _ => Except.ok (JVal.str "Ceria (CeO2)")

/-- An identification function that always raises a domain error. -/
def identifyBoom : Identify := fun _ _ _ => Except.error (PyExc.other "peaks out of range")

/-- A JSON parser stub always returning the empty object. -/
def emptyObjLoads : JsonLoads := fun _ => Except.ok (JVal.obj [])

/-- A JSON parser stub that always raises a decode error. -/
def badJsonLoads : JsonLoads :=
  fun _ => Except.error (PyExc.other "Expecting value: line 1 column 1 (char 0)")

/-- A tool call requesting the registered tool with an empty JSON payload. -/
def toolCallW : ToolCall := ⟨"call_1", ⟨"identify_material", "\x7b\x7d"⟩⟩

/-- An engine that always requests a tool call. -/
def engineToolW : Engine := fun _ => Except.ok ⟨none, [toolCallW]⟩

/-- An engine that always answers directly. -/
def engineDirectW : Engine :=
  fun _ => Except.ok ⟨some "Raman spectroscopy measures inelastic light scattering.", []⟩

/-- An engine whose call always raises. -/
def engineFailW : Engine := fun _ => Except.error (PyExc.other "engine timeout")

/-- An engine returning two simultaneous tool calls in a single reply. -/
def engineTwoCallsW : Engine :=
  fun _ => Except.ok ⟨none,
    [⟨"call_a", ⟨"identify_material", "\x7b\x7d"⟩⟩,
     ⟨"call_b", ⟨"identify_material", "\x7b\x7d"⟩⟩]⟩

/-- An engine requesting a tool call whose raw arguments payload is not
valid JSON. -/
def engineBadJsonW : Engine :=
  fun _ => Except.ok ⟨none, [⟨"call_1", ⟨"identify_material", "not json"⟩⟩]⟩

/-- The outbound context after one tool cycle of `engineTwoCallsW` with
`emptyObjLoads` on the user message "identify this": only the first of the
two simultaneous tool calls is honored. -/
def ctxAfterOneCycleW : List Msg :=
  [systemTurn, userTurn "identify this",
   assistantToolTurn ⟨"call_a", ⟨"identify_material", "\x7b\x7d"⟩⟩,
   toolTurn ⟨"call_a", ⟨"identify_material", "\x7b\x7d"⟩⟩
     (execute_tool identifyCeria "identify_material" (JVal.obj []))]

/-- An engine whose first reply (to the two-message initial context) carries
a parseable empty-object payload and whose later replies carry an unparsable
one: the parse failure happens on the second cycle, not the first. -/
def engineLateBadJsonW : Engine :=
  fun msgs =>
    if msgs.length == 2 then
      Except.ok ⟨none, [⟨"call_1", ⟨"identify_material", "\x7b\x7d"⟩⟩]⟩
    else
      Except.ok ⟨none, [⟨"call_2", ⟨"identify_material", "not json"⟩⟩]⟩

/-- A JSON parser stub that parses the empty-object payload and raises a
decode error on anything else. -/
def pickyJsonLoads : JsonLoads :=
  fun s =>
    if s = "\x7b\x7d" then Except.ok (JVal.obj [])
    else Except.error (PyExc.other "Expecting value: line 1 column 1 (char 0)")

/-- The second outbound context of `engineLateBadJsonW` with
`pickyJsonLoads` on the user message "identify it": the reply the engine
gives there carries the unparsable payload. -/
def ctxCycle2W : List Msg :=
  [systemTurn, userTurn "identify it",
   assistantToolTurn ⟨"call_1", ⟨"identify_material", "\x7b\x7d"⟩⟩,
   toolTurn ⟨"call_1", ⟨"identify_material", "\x7b\x7d"⟩⟩
     (execute_tool identifyCeria "identify_material" (JVal.obj []))]

/-! ## Dispatcher lemmas -/

/-- Reading the three required keys when the first one is absent raises
`KeyError("peak_1")`. -/
theorem requiredArgs_missing1 (fields : List (String × JVal))
    (h : lookupField fields "peak_1" = none) :
    requiredArgs (JVal.obj fields) = Except.error (PyExc.keyError "peak_1") := by
  simp [requiredArgs, getitem, h]

/-- Reading the three required keys when the second one is the first absent
key raises `KeyError("peak_2")`. -/
theorem requiredArgs_missing2 (fields : List (String × JVal)) (p1 : JVal)
    (h1 : lookupField fields "peak_1" = some p1)
    (h : lookupField fields "peak_2" = none) :
    requiredArgs (JVal.obj fields) = Except.error (PyExc.keyError "peak_2") := by
  simp [requiredArgs, getitem, h1, h]

/-- Reading the three required keys when only the third is absent raises
`KeyError("formation_energy")`. -/
theorem requiredArgs_missing3 (fields : List (String × JVal)) (p1 p2 : JVal)
    (h1 : lookupField fields "peak_1" = some p1)
    (h2 : lookupField fields "peak_2" = some p2)
    (h : lookupField fields "formation_energy" = none) :
    requiredArgs (JVal.obj fields) = Except.error (PyExc.keyError "formation_energy") := by
  simp [requiredArgs, getitem, h1, h2, h]

/-- When all three required keys are bound, the reads succeed with their
values, in order. -/
theorem requiredArgs_complete (fields : List (String × JVal)) (p1 p2 fe : JVal)
    (h1 : lookupField fields "peak_1" = some p1)
    (h2 : lookupField fields "peak_2" = some p2)
    (h3 : lookupField fields "formation_energy" = some fe) :
    requiredArgs (JVal.obj fields) = Except.ok (p1, p2, fe) := by
  simp [requiredArgs, getitem, h1, h2, h3]

/-! ## Claims about the dispatcher -/

/-- C4: for every tool name different from the single registered name
`identify_material` and every arguments value, dispatch returns a failure
outcome whose error text is `"Unknown tool: "` followed by that name (so the
error text contains the name), and the registered identification function is
called zero times — for any identification function at all. -/
theorem execute_tool_unknown_tool (identify : Identify) (tool_name : String)
    (arguments : JVal) (h : tool_name ≠ "identify_material") :
    execute_tool_outcome identify tool_name arguments
        = Outcome.failure ("Unknown tool: " ++ tool_name)
      ∧ execute_tool_calls tool_name arguments = 0 := by
  constructor
  · rw [execute_tool_outcome, if_pos h]
  · rw [execute_tool_calls, if_pos h]

/-- Witness for C4 at the concrete unknown tool name `"get_weather"`. -/
theorem execute_tool_unknown_tool_witness :
    execute_tool_outcome identifyCeria "get_weather" (JVal.obj ceriaArgs)
        = Outcome.failure ("Unknown tool: " ++ "get_weather")
      ∧ execute_tool_calls "get_weather" (JVal.obj ceriaArgs) = 0 :=
  execute_tool_unknown_tool identifyCeria "get_weather" (JVal.obj ceriaArgs) (by decide)

/-- C5: for every arguments mapping lacking at least one of `peak_1`,
`peak_2`, `formation_energy`, dispatching `identify_material` returns a
failure outcome naming a missing key (the first one absent in evaluation
order), and the identification function is invoked zero times. -/
theorem execute_tool_missing_key (identify : Identify) (fields : List (String × JVal))
    (h : lookupField fields "peak_1" = none ∨ lookupField fields "peak_2" = none
        ∨ lookupField fields "formation_energy" = none) :
    (∃ k, (k = "peak_1" ∨ k = "peak_2" ∨ k = "formation_energy")
        ∧ lookupField fields k = none
        ∧ execute_tool_outcome identify "identify_material" (JVal.obj fields)
            = Outcome.failure ("Missing argument: \x27" ++ k ++ "\x27"))
      ∧ execute_tool_calls "identify_material" (JVal.obj fields) = 0 := by
  cases hp1 : lookupField fields "peak_1" with
  | none =>
    have hra := requiredArgs_missing1 fields hp1
    refine ⟨⟨"peak_1", Or.inl rfl, hp1, ?_⟩, ?_⟩ <;>
      simp [execute_tool_outcome, execute_tool_calls, hra, outcomeOfExc, strPyExc]
  | some p1 =>
    cases hp2 : lookupField fields "peak_2" with
    | none =>
      have hra := requiredArgs_missing2 fields p1 hp1 hp2
      refine ⟨⟨"peak_2", Or.inr (Or.inl rfl), hp2, ?_⟩, ?_⟩ <;>
        simp [execute_tool_outcome, execute_tool_calls, hra, outcomeOfExc, strPyExc]
    | some p2 =>
      cases hp3 : lookupField fields "formation_energy" with
      | none =>
        have hra := requiredArgs_missing3 fields p1 p2 hp1 hp2 hp3
        refine ⟨⟨"formation_energy", Or.inr (Or.inr rfl), hp3, ?_⟩, ?_⟩ <;>
          simp [execute_tool_outcome, execute_tool_calls, hra, outcomeOfExc, strPyExc]
      | some fe =>
        rcases h with h | h | h
        · exact absurd hp1 (h ▸ fun hc => Option.noConfusion hc)
        · exact absurd hp2 (h ▸ fun hc => Option.noConfusion hc)
        · exact absurd hp3 (h ▸ fun hc => Option.noConfusion hc)

/-- Witness for C5 at a concrete mapping that omits `formation_energy`. -/
theorem execute_tool_missing_key_witness :
    (∃ k, (k = "peak_1" ∨ k = "peak_2" ∨ k = "formation_energy")
        ∧ lookupField [("peak_1", JVal.num 465), ("peak_2", JVal.num 610)] k = none
        ∧ execute_tool_outcome identifyCeria "identify_material"
              (JVal.obj [("peak_1", JVal.num 465), ("peak_2", JVal.num 610)])
            = Outcome.failure ("Missing argument: \x27" ++ k ++ "\x27"))
      ∧ execute_tool_calls "identify_material"
          (JVal.obj [("peak_1", JVal.num 465), ("peak_2", JVal.num 610)]) = 0 :=
  execute_tool_missing_key identifyCeria
    [("peak_1", JVal.num 465), ("peak_2", JVal.num 610)]
    (Or.inr (Or.inr rfl))

/-- C6: for every arguments mapping binding all three required keys, if the
identification function applied to the bound values returns `v` without
raising, the dispatch returns a success outcome wrapping `v` unchanged, and
its serialized form is exactly the `json.dumps` rendering of
`{"success": true, "result": v}`. -/
theorem execute_tool_success (identify : Identify) (fields : List (String × JVal))
    (p1 p2 fe v : JVal)
    (h1 : lookupField fields "peak_1" = some p1)
    (h2 : lookupField fields "peak_2" = some p2)
    (h3 : lookupField fields "formation_energy" = some fe)
    (hid : identify p1 p2 fe = Except.ok v) :
    execute_tool_outcome identify "identify_material" (JVal.obj fields)
        = Outcome.success v
      ∧ execute_tool identify "identify_material" (JVal.obj fields)
        = "\x7b\"success\": true, \"result\": " ++ dumpsJVal v ++ "\x7d" := by
  have hra := requiredArgs_complete fields p1 p2 fe h1 h2 h3
  have hout : execute_tool_outcome identify "identify_material" (JVal.obj fields)
      = Outcome.success v := by
    simp [execute_tool_outcome, hra, hid]
  exact ⟨hout, by simp [execute_tool, hout, dumpsOutcome]⟩

/-- Witness for C6 at the smoke-test arguments
`{peak_1: 465, peak_2: 610, formation_energy: -11.2}`. -/
theorem execute_tool_success_witness :
    execute_tool_outcome identifyCeria "identify_material" (JVal.obj ceriaArgs)
        = Outcome.success (JVal.str "Ceria (CeO2)")
      ∧ execute_tool identifyCeria "identify_material" (JVal.obj ceriaArgs)
        = "\x7b\"success\": true, \"result\": "
            ++ dumpsJVal (JVal.str "Ceria (CeO2)") ++ "\x7d" :=
  execute_tool_success identifyCeria ceriaArgs
    (JVal.num 465) (JVal.num 610) (JVal.num (-11.2)) (JVal.str "Ceria (CeO2)")
    rfl rfl rfl rfl

/-- C7: every exception raised by the identification function during a
dispatch with all required keys present is caught and converted into a
failure outcome whose error text carries the exception's `str` message (the
dedicated `KeyError` clause prefixes it with `"Missing argument: "`, any
other exception's message is taken verbatim); no fault propagates out of the
dispatcher, which returns an outcome in every case. -/
theorem execute_tool_exception (identify : Identify) (fields : List (String × JVal))
    (p1 p2 fe : JVal) (e : PyExc)
    (h1 : lookupField fields "peak_1" = some p1)
    (h2 : lookupField fields "peak_2" = some p2)
    (h3 : lookupField fields "formation_energy" = some fe)
    (hid : identify p1 p2 fe = Except.error e) :
    ∃ pre, execute_tool_outcome identify "identify_material" (JVal.obj fields)
        = Outcome.failure (pre ++ strPyExc e) := by
  have hra := requiredArgs_complete fields p1 p2 fe h1 h2 h3
  cases e with
  | keyError k =>
    exact ⟨"Missing argument: ", by simp [execute_tool_outcome, hra, hid, outcomeOfExc]⟩
  | other m =>
    exact ⟨"", by simp [execute_tool_outcome, hra, hid, outcomeOfExc, strPyExc]⟩

/-- Witness for C7 at a concrete raising identification function. -/
theorem execute_tool_exception_witness :
    ∃ pre, execute_tool_outcome identifyBoom "identify_material" (JVal.obj ceriaArgs)
        = Outcome.failure (pre ++ strPyExc (PyExc.other "peaks out of range")) :=
  execute_tool_exception identifyBoom ceriaArgs
    (JVal.num 465) (JVal.num 610) (JVal.num (-11.2)) (PyExc.other "peaks out of range")
    rfl rfl rfl rfl

/-- C10: the dispatch outcome depends only on the tool name and on the
values bound to `peak_1`, `peak_2` and `formation_energy`: two argument
mappings agreeing on those three keys produce the same outcome under any
(deterministic) identification function, so extra unrecognized keys are
silently ignored. -/
theorem execute_tool_depends_only_on_required (identify : Identify) (tool_name : String)
    (f1 f2 : List (String × JVal))
    (h1 : lookupField f1 "peak_1" = lookupField f2 "peak_1")
    (h2 : lookupField f1 "peak_2" = lookupField f2 "peak_2")
    (h3 : lookupField f1 "formation_energy" = lookupField f2 "formation_energy") :
    execute_tool_outcome identify tool_name (JVal.obj f1)
      = execute_tool_outcome identify tool_name (JVal.obj f2) := by
  have hra : requiredArgs (JVal.obj f1) = requiredArgs (JVal.obj f2) := by
    simp [requiredArgs, getitem, h1, h2, h3]
  simp [execute_tool_outcome, hra]

/-- Witness for C10: adding the unrecognized key `units` leaves the outcome
unchanged. -/
theorem execute_tool_depends_only_on_required_witness :
    execute_tool_outcome identifyCeria "identify_material" (JVal.obj ceriaArgsExtra)
      = execute_tool_outcome identifyCeria "identify_material" (JVal.obj ceriaArgs) :=
  execute_tool_depends_only_on_required identifyCeria "identify_material"
    ceriaArgsExtra ceriaArgs rfl rfl rfl

/-! ## Orchestrator lemmas -/

/-- Unfolding of `chat` into the loop (the `let` in the definition). -/
theorem chat_def (engine : Engine) (jloads : JsonLoads) (identify : Identify)
    (history : List Msg) (user_message : String) :
    chat engine jloads identify history user_message
      = chatLoop engine jloads identify (history ++ [userTurn user_message])
          (systemTurn :: (history ++ [userTurn user_message])) 3 := rfl

/-- Unfolding of `chatContexts` into the trace observation. -/
theorem chatContexts_def (engine : Engine) (jloads : JsonLoads) (identify : Identify)
    (history : List Msg) (user_message : String) :
    chatContexts engine jloads identify history user_message
      = sentContexts engine jloads identify
          (systemTurn :: (history ++ [userTurn user_message])) 3 := rfl

/-- Appending a pending-invocation turn and its resolution turn to a
well-formed context keeps it well-formed. -/
theorem toolPairsOk_append_pair (tc : ToolCall) (s : String) :
    ∀ (xs : List Msg), toolPairsOk xs = true →
      toolPairsOk (xs ++ [assistantToolTurn tc, toolTurn tc s]) = true := by
  intro xs
  induction xs using toolPairsOk.induct with
  | case1 =>
    intro _
    simp [toolPairsOk, pendingInvocation, resolves, assistantToolTurn, toolTurn]
  | case2 m =>
    intro h
    rw [toolPairsOk] at h
    simp only [List.cons_append, List.nil_append]
    rw [toolPairsOk]
    rw [if_neg (by simp_all)]
    simp [toolPairsOk, pendingInvocation, resolves, assistantToolTurn, toolTurn]
  | case3 m t rest hp ih =>
    intro h
    rw [toolPairsOk, if_pos hp] at h
    simp only [Bool.and_eq_true] at h
    simp only [List.cons_append]
    rw [toolPairsOk, if_pos hp]
    simp only [Bool.and_eq_true]
    exact ⟨h.1, ih h.2⟩
  | case4 m t rest hp ih =>
    intro h
    rw [toolPairsOk, if_neg hp] at h
    simp only [List.cons_append]
    rw [toolPairsOk, if_neg hp]
    exact ih h

/-- A context whose turns carry no tool calls at all is well-formed. -/
theorem toolPairsOk_of_no_calls :
    ∀ (xs : List Msg), (∀ t ∈ xs, t.tool_calls = []) → toolPairsOk xs = true := by
  intro xs
  induction xs using toolPairsOk.induct with
  | case1 => intro _; rfl
  | case2 m =>
    intro h
    have hm : m.tool_calls = [] := h m (by simp)
    rw [toolPairsOk]
    simp [pendingInvocation, hm]
  | case3 m t rest hp _ =>
    intro h
    have hm : m.tool_calls = [] := h m (by simp)
    rw [pendingInvocation] at hp
    simp [hm] at hp
  | case4 m t rest hp ih =>
    intro h
    rw [toolPairsOk, if_neg hp]
    exact ih (fun x hx => h x (List.mem_cons_of_mem m hx))

/-- Every outbound context the loop sends to the engine is well-formed,
provided the starting context is: each cycle appends exactly the
pending-invocation turn for the first tool call of the reply and its
resolution turn. -/
theorem sentContexts_toolPairsOk (engine : Engine) (jloads : JsonLoads)
    (identify : Identify) :
    ∀ (n : Nat) (messages : List Msg), toolPairsOk messages = true →
      ∀ ctx ∈ sentContexts engine jloads identify messages n,
        toolPairsOk ctx = true := by
  intro n
  induction n with
  | zero =>
    intro messages _ ctx hctx
    simp [sentContexts] at hctx
  | succ k ih =>
    intro messages hok ctx hctx
    rw [sentContexts] at hctx
    rcases List.mem_cons.mp hctx with hc | hc
    · exact hc ▸ hok
    · cases heng : engine messages with
      | error e =>
        simp only [heng] at hc
        exact absurd hc (List.not_mem_nil ctx)
      | ok message =>
        simp only [heng] at hc
        cases htc : message.tool_calls with
        | nil =>
          simp only [htc] at hc
          exact absurd hc (List.not_mem_nil ctx)
        | cons tc rest =>
          simp only [htc] at hc
          cases hj : jloads tc.function.arguments with
          | error e =>
            simp only [hj] at hc
            exact absurd hc (List.not_mem_nil ctx)
          | ok args =>
            simp only [hj] at hc
            exact ih _ (toolPairsOk_append_pair tc _ messages hok) ctx hc

/-- If the engine replies at one of the loop's outbound contexts with a
direct answer (no tool calls), the loop returns that content and appends
exactly the final assistant turn to the session history. -/
theorem chatLoop_direct_answer (engine : Engine) (jloads : JsonLoads)
    (identify : Identify) (hist : List Msg) (reply : EngineReply)
    (hnt : reply.tool_calls = []) :
    ∀ (n : Nat) (messages ctx : List Msg),
      ctx ∈ sentContexts engine jloads identify messages n →
      engine ctx = Except.ok reply →
      chatLoop engine jloads identify hist messages n
        = ⟨hist ++ [assistantTurn reply.content], Except.ok reply.content⟩ := by
  intro n
  induction n with
  | zero =>
    intro messages ctx hctx _
    simp [sentContexts] at hctx
  | succ k ih =>
    intro messages ctx hctx hr
    rw [sentContexts] at hctx
    rcases List.mem_cons.mp hctx with hc | hc
    · subst hc
      simp [chatLoop, hr, hnt]
    · cases heng : engine messages with
      | error e =>
        simp only [heng] at hc
        exact absurd hc (List.not_mem_nil ctx)
      | ok message =>
        simp only [heng] at hc
        cases htc : message.tool_calls with
        | nil =>
          simp only [htc] at hc
          exact absurd hc (List.not_mem_nil ctx)
        | cons tc rest =>
          simp only [htc] at hc
          cases hj : jloads tc.function.arguments with
          | error e =>
            simp only [hj] at hc
            exact absurd hc (List.not_mem_nil ctx)
          | ok args =>
            simp only [hj] at hc
            rw [chatLoop]
            simp only [heng, htc, hj]
            exact ih _ ctx hc hr

/-- If the engine raises at one of the loop's outbound contexts, the
exception propagates out of the loop and the session history is returned
untouched. -/
theorem chatLoop_engine_error (engine : Engine) (jloads : JsonLoads)
    (identify : Identify) (hist : List Msg) (err : PyExc) :
    ∀ (n : Nat) (messages ctx : List Msg),
      ctx ∈ sentContexts engine jloads identify messages n →
      engine ctx = Except.error err →
      chatLoop engine jloads identify hist messages n
        = ⟨hist, Except.error err⟩ := by
  intro n
  induction n with
  | zero =>
    intro messages ctx hctx _
    simp [sentContexts] at hctx
  | succ k ih =>
    intro messages ctx hctx hr
    rw [sentContexts] at hctx
    rcases List.mem_cons.mp hctx with hc | hc
    · subst hc
      simp [chatLoop, hr]
    · cases heng : engine messages with
      | error e =>
        simp only [heng] at hc
        exact absurd hc (List.not_mem_nil ctx)
      | ok message =>
        simp only [heng] at hc
        cases htc : message.tool_calls with
        | nil =>
          simp only [htc] at hc
          exact absurd hc (List.not_mem_nil ctx)
        | cons tc rest =>
          simp only [htc] at hc
          cases hj : jloads tc.function.arguments with
          | error e =>
            simp only [hj] at hc
            exact absurd hc (List.not_mem_nil ctx)
          | ok args =>
            simp only [hj] at hc
            rw [chatLoop]
            simp only [heng, htc, hj]
            exact ih _ ctx hc hr

/-- If the engine replies at one of the loop's outbound contexts with a
tool call whose raw arguments payload fails to parse, the parse exception
propagates out of the loop and the session history is returned untouched. -/
theorem chatLoop_parse_error (engine : Engine) (jloads : JsonLoads)
    (identify : Identify) (hist : List Msg) (e : PyExc) :
    ∀ (n : Nat) (messages ctx : List Msg) (tc : ToolCall) (rest : List ToolCall)
      (c : Option String),
      ctx ∈ sentContexts engine jloads identify messages n →
      engine ctx = Except.ok ⟨c, tc :: rest⟩ →
      jloads tc.function.arguments = Except.error e →
      chatLoop engine jloads identify hist messages n
        = ⟨hist, Except.error e⟩ := by
  intro n
  induction n with
  | zero =>
    intro messages ctx tc rest c hctx _ _
    simp [sentContexts] at hctx
  | succ k ih =>
    intro messages ctx tc rest c hctx hr hj
    rw [sentContexts] at hctx
    rcases List.mem_cons.mp hctx with hc | hc
    · subst hc
      simp [chatLoop, hr, hj]
    · cases heng : engine messages with
      | error e2 =>
        simp only [heng] at hc
        exact absurd hc (List.not_mem_nil ctx)
      | ok message =>
        simp only [heng] at hc
        cases htc : message.tool_calls with
        | nil =>
          simp only [htc] at hc
          exact absurd hc (List.not_mem_nil ctx)
        | cons tc2 rest2 =>
          simp only [htc] at hc
          cases hj2 : jloads tc2.function.arguments with
          | error e2 =>
            simp only [hj2] at hc
            exact absurd hc (List.not_mem_nil ctx)
          | ok args =>
            simp only [hj2] at hc
            rw [chatLoop]
            simp only [heng, htc, hj2]
            exact ih _ ctx tc rest c hc hr hj

/-- If the engine keeps requesting tools on every context and the JSON
parser always succeeds, the loop exhausts its fuel and returns the fallback
with the history untouched. -/
theorem chatLoop_cap (engine : Engine) (jloads : JsonLoads) (identify : Identify)
    (hist : List Msg) (hjl : ∀ s, ∃ v, jloads s = Except.ok v) :
    ∀ (n : Nat) (messages : List Msg),
      (∀ ctx ∈ sentContexts engine jloads identify messages n,
        ∃ reply, engine ctx = Except.ok reply ∧ reply.tool_calls ≠ []) →
      chatLoop engine jloads identify hist messages n
        = ⟨hist, Except.ok (some fallbackMessage)⟩ := by
  intro n
  induction n with
  | zero => intro messages _; rfl
  | succ k ih =>
    intro messages heng
    obtain ⟨reply, hr, hneq⟩ :=
      heng messages (by rw [sentContexts]; exact List.mem_cons_self _ _)
    cases htc : reply.tool_calls with
    | nil => exact absurd htc hneq
    | cons tc rest =>
      obtain ⟨v, hv⟩ := hjl tc.function.arguments
      have htail : sentContexts engine jloads identify messages (k + 1)
          = messages :: sentContexts engine jloads identify
              (messages ++ [assistantToolTurn tc,
                toolTurn tc (execute_tool identify tc.function.name v)]) k := by
        rw [sentContexts]
        simp only [hr, htc, hv]
      rw [chatLoop]
      simp only [hr, htc, hv]
      refine ih _ ?_
      intro ctx hc
      refine heng ctx ?_
      rw [htail]
      exact List.mem_cons_of_mem _ hc

/-! ## Claims about the orchestrator -/

/-- C1: whenever the engine returns a direct answer (a reply without tool
calls) at one of the outbound contexts of a `chat` call — that is, whenever
the chat operation completes successfully within the iteration cap — the
stored session history after the call is the history before the call with
exactly the user turn and the final assistant turn appended, and none of the
intermediate tool-invocation or tool-outcome turns built during tool cycles
is persisted, regardless of how many cycles occurred. -/
theorem chat_success_persists_two_turns (engine : Engine) (jloads : JsonLoads)
    (identify : Identify) (history : List Msg) (user_message : String)
    (ctx : List Msg) (reply : EngineReply)
    (hctx : ctx ∈ chatContexts engine jloads identify history user_message)
    (hreply : engine ctx = Except.ok reply)
    (hdirect : reply.tool_calls = []) :
    chat engine jloads identify history user_message
      = ⟨history ++ [userTurn user_message, assistantTurn reply.content],
         Except.ok reply.content⟩ := by
  rw [chatContexts_def] at hctx
  rw [chat_def,
    chatLoop_direct_answer engine jloads identify (history ++ [userTurn user_message])
      reply hdirect 3 _ ctx hctx hreply]
  simp

/-- Witness for C1 with a concrete direct-answer engine. -/
theorem chat_success_persists_two_turns_witness :
    chat engineDirectW emptyObjLoads identifyCeria [] "What is Raman spectroscopy?"
      = ⟨[] ++ [userTurn "What is Raman spectroscopy?",
            assistantTurn (some "Raman spectroscopy measures inelastic light scattering.")],
         Except.ok (some "Raman spectroscopy measures inelastic light scattering.")⟩ :=
  chat_success_persists_two_turns engineDirectW emptyObjLoads identifyCeria []
    "What is Raman spectroscopy?"
    [systemTurn, userTurn "What is Raman spectroscopy?"]
    ⟨some "Raman spectroscopy measures inelastic light scattering.", []⟩
    (by decide) rfl rfl

/-- C2: when every engine reply requests a tool call (and the argument
payloads parse), the three loop iterations are exhausted, `chat` returns the
exact fixed fallback string, and the persisted session history holds only
the user's turn — no assistant turn is appended. -/
theorem chat_cap_fallback (engine : Engine) (jloads : JsonLoads) (identify : Identify)
    (history : List Msg) (user_message : String)
    (heng : ∀ ctx ∈ chatContexts engine jloads identify history user_message,
      ∃ reply, engine ctx = Except.ok reply ∧ reply.tool_calls ≠ [])
    (hjl : ∀ s, ∃ v, jloads s = Except.ok v) :
    chat engine jloads identify history user_message
      = ⟨history ++ [userTurn user_message], Except.ok (some fallbackMessage)⟩ := by
  rw [chatContexts_def] at heng
  rw [chat_def]
  exact chatLoop_cap engine jloads identify _ hjl 3 _ heng

/-- Witness for C2 with an engine that always requests the tool. -/
theorem chat_cap_fallback_witness :
    chat engineToolW emptyObjLoads identifyCeria [] "identify peaks"
      = ⟨[] ++ [userTurn "identify peaks"], Except.ok (some fallbackMessage)⟩ :=
  chat_cap_fallback engineToolW emptyObjLoads identifyCeria [] "identify peaks"
    (fun _ _ => ⟨⟨none, [toolCallW]⟩, rfl, by decide⟩)
    (fun _ => ⟨JVal.obj [], rfl⟩)

/-- C3 counterexample: with an engine reply whose tool call carries a raw
arguments payload that does not parse, the `json.loads` exception propagates
out of `chat` uncaught — no failure outcome is produced and the conversation
loop is aborted by an unhandled fault, contradicting the claim that a parse
failure is converted into a failure outcome without a fault escaping the
loop. -/
theorem chat_unparsable_arguments_counterexample :
    (chat engineBadJsonW badJsonLoads identifyCeria [] "identify peaks 465 and 610").result
      = Except.error (PyExc.other "Expecting value: line 1 column 1 (char 0)") := rfl

/-- C3 amended: whenever the engine, at any of the outbound contexts of a
`chat` call, replies with a tool-invocation request whose raw arguments
payload fails to parse, the parse exception propagates out of the chat
operation (the registered function is not invoked — the conclusion holds
for every identification function — and no failure outcome is built); the
session history keeps only the user's turn. -/
theorem chat_unparsable_arguments_raise (engine : Engine) (jloads : JsonLoads)
    (identify : Identify) (history : List Msg) (user_message : String)
    (ctx : List Msg) (tc : ToolCall) (rest : List ToolCall) (c : Option String)
    (e : PyExc)
    (hctx : ctx ∈ chatContexts engine jloads identify history user_message)
    (heng : engine ctx = Except.ok ⟨c, tc :: rest⟩)
    (hj : jloads tc.function.arguments = Except.error e) :
    chat engine jloads identify history user_message
      = ⟨history ++ [userTurn user_message], Except.error e⟩ := by
  rw [chatContexts_def] at hctx
  rw [chat_def]
  exact chatLoop_parse_error engine jloads identify _ e 3 _ ctx tc rest c hctx heng hj

/-- Witness for the amended C3 at a run whose parse failure happens on the
second cycle: the first reply's payload parses, the second one does not. -/
theorem chat_unparsable_arguments_raise_witness :
    chat engineLateBadJsonW pickyJsonLoads identifyCeria [] "identify it"
      = ⟨[] ++ [userTurn "identify it"],
         Except.error (PyExc.other "Expecting value: line 1 column 1 (char 0)")⟩ :=
  chat_unparsable_arguments_raise engineLateBadJsonW pickyJsonLoads identifyCeria []
    "identify it" ctxCycle2W ⟨"call_2", ⟨"identify_material", "not json"⟩⟩ [] none
    (PyExc.other "Expecting value: line 1 column 1 (char 0)")
    (by decide) rfl rfl

/-- C8: if the generation-engine call raises at any of the outbound contexts
of a `chat` call, the error propagates out of the chat operation unmasked,
and the persisted session history is left with exactly the user's turn
appended — no partial assistant turn — so a retry can be attempted cleanly. -/
theorem chat_engine_error_propagates (engine : Engine) (jloads : JsonLoads)
    (identify : Identify) (history : List Msg) (user_message : String)
    (ctx : List Msg) (err : PyExc)
    (hctx : ctx ∈ chatContexts engine jloads identify history user_message)
    (herr : engine ctx = Except.error err) :
    chat engine jloads identify history user_message
      = ⟨history ++ [userTurn user_message], Except.error err⟩ := by
  rw [chatContexts_def] at hctx
  rw [chat_def]
  exact chatLoop_engine_error engine jloads identify _ err 3 _ ctx hctx herr

/-- Witness for C8 with an engine whose call always raises. -/
theorem chat_engine_error_propagates_witness :
    chat engineFailW emptyObjLoads identifyCeria [] "hello"
      = ⟨[] ++ [userTurn "hello"], Except.error (PyExc.other "engine timeout")⟩ :=
  chat_engine_error_propagates engineFailW emptyObjLoads identifyCeria [] "hello"
    [systemTurn, userTurn "hello"] (PyExc.other "engine timeout")
    (by decide) rfl

/-- C9: in every outbound context built while processing a single user
message (starting from a persisted history whose turns carry no tool
calls), every assistant turn holding a tool-invocation request holds exactly
one and is immediately followed, before any other turn, by exactly one
tool-role turn tagged with that request's identifier — the engine never sees
an unresolved or doubled invocation, and at most the first invocation of a
reply is processed per cycle. -/
theorem chat_contexts_resolved (engine : Engine) (jloads : JsonLoads)
    (identify : Identify) (history : List Msg) (user_message : String)
    (hh : ∀ t ∈ history, t.tool_calls = []) :
    ∀ ctx ∈ chatContexts engine jloads identify history user_message,
      toolPairsOk ctx = true := by
  intro ctx hctx
  rw [chatContexts_def] at hctx
  refine sentContexts_toolPairsOk engine jloads identify 3 _ ?_ ctx hctx
  apply toolPairsOk_of_no_calls
  intro t ht
  rcases List.mem_cons.mp ht with rfl | ht2
  · rfl
  · rcases List.mem_append.mp ht2 with h | h
    · exact hh t h
    · rw [List.mem_singleton.mp h]
      rfl

/-- Witness for C9: the context after one cycle of an engine that returned
two simultaneous tool calls is well-formed (only the first call was
honored, and it is immediately resolved). -/
theorem chat_contexts_resolved_witness : toolPairsOk ctxAfterOneCycleW = true :=
  chat_contexts_resolved engineTwoCallsW emptyObjLoads identifyCeria [] "identify this"
    (fun t ht => absurd ht (List.not_mem_nil t))
    ctxAfterOneCycleW (by decide)

end Crucible
